import Mathlib

/-!
Verification of the client-side session manager of the forensic tool
(`SessionManager` in the frontend API configuration module).

The JavaScript code is shallowly embedded as follows.

* JSON documents are modelled by the inductive type `Json`
  (numbers as integers, which covers every value the component produces).
* A JavaScript value that may be `undefined` is an `Option Json`
  (`none` is `undefined`, `some Json.null` is `null`).
* `localStorage` is an association list from keys to strings; the component
  only ever touches the single key `forensic_tool_session_id`.
* Each `fetch` call is reified as a `Request` describing the endpoint,
  method and JSON body.  The behaviour of the network and the server is a
  `Transport`, a function from requests to `FetchOutcome`:
  either the promise rejects (`networkError`) or a response arrives with an
  `ok` flag and a body; `body = none` means `response.json()` rejects.
* Each operation threads a `ClientState` (the storage plus the trace of
  requests issued so far, in order) and is split into a `...Try` function,
  the literal translation of the `try` block returning `Except JsErr`,
  and the public function that applies the `catch` clause, which logs to
  the console and returns the neutral value of the operation.
-/

set_option autoImplicit false

namespace ForensicSession

/-- JSON values; numbers are modelled as integers. -/
inductive Json where
  | null
  | bool (b : Bool)
  | num (n : Int)
  | str (s : String)
  | arr (elems : List Json)
  | obj (fields : List (String × Json))
deriving Repr, Inhabited

/-- Is this JSON value the literal `null`? -/
def Json.isNull : Json → Bool
  | .null => true
  | _ => false

/-- Property access `data.k` on a parsed JSON document: the first binding of
the field in an object, `none` (JavaScript `undefined`) otherwise.  Access on
the base value `null` throws in JavaScript and is handled separately by the
operations. -/
def Json.getField : Json → String → Option Json
  | .obj fields, k => (fields.find? (fun p => p.1 == k)).map (fun p => p.2)
  | _, _ => none

mutual

/-- JavaScript string coercion `String(v)` of a JSON value, as used by
`localStorage.setItem` and template-literal interpolation. -/
def Json.toJsString : Json → String
  | .null => "null"
  | .bool b => if b then "true" else "false"
  | .num n => toString n
  | .str s => s
  | .arr elems => String.intercalate "," (Json.arrToStrings elems)
  | .obj _ => "[object Object]"

/-- Array elements under `String(...)`: `null` elements print as the empty
string, the rest recursively. -/
def Json.arrToStrings : List Json → List String
  | [] => []
  | j :: rest => (if j.isNull then "" else Json.toJsString j) :: Json.arrToStrings rest

end

/-- A JavaScript value that may also be `undefined` (`none`). -/
abbrev JsVal := Option Json

/-- JavaScript truthiness of a value. -/
def JsVal.truthy : JsVal → Bool
  | none => false
  | some Json.null => false
  | some (Json.bool b) => b
  | some (Json.num n) => n != 0
  | some (Json.str s) => s != ""
  | some (Json.arr _) => true
  | some (Json.obj _) => true

/-- `String(v)` for a possibly-`undefined` value. -/
def jsValToString : JsVal → String
  | none => "undefined"
  | some j => Json.toJsString j

/-- A default parameter value `= d`: applied when the caller passes
`undefined`. -/
def jsDefault (v : JsVal) (d : Json) : Json :=
  match v with
  | none => d
  | some j => j

/-- Browser `localStorage`, restricted to string keys and string values. -/
abbrev Storage := List (String × String)

/-- `localStorage.getItem`: the stored string, or `none` for JavaScript
`null` when the key is absent. -/
def Storage.getItem (st : Storage) (k : String) : Option String :=
  (st.find? (fun p => p.1 == k)).map (fun p => p.2)

/-- `localStorage.setItem`: overwrite any existing binding of the key. -/
def Storage.setItem (st : Storage) (k v : String) : Storage :=
  (k, v) :: st.filter (fun p => p.1 != k)

/-- `localStorage.removeItem`. -/
def Storage.removeItem (st : Storage) (k : String) : Storage :=
  st.filter (fun p => p.1 != k)

/-- The single storage key owned by the component
(`SESSION_STORAGE_KEY = "forensic_tool_session_id"`). -/
def SESSION_STORAGE_KEY : String := "forensic_tool_session_id"

/-- The network requests the component can issue, one constructor per
endpoint of `API_ENDPOINTS` that `SessionManager` uses.  Session ids
appearing in URLs are already string-coerced.  `fetchHistory` carries the
`limit` query parameter. -/
inductive Request where
  | validateSession (sessionId : String)
  | createSession (body : Json)
  | appendInteraction (sessionId : String) (body : Json)
  | fetchHistory (sessionId : String) (limit : Int)
  | updateSessionContext (sessionId : String) (body : Json)

/-- The outcome of one `fetch`: either the promise rejects (network
failure), or a response arrives with its `ok` flag (2xx) and a body;
`body = none` means a later `response.json()` call rejects. -/
inductive FetchOutcome where
  | networkError
  | response (ok : Bool) (body : Option Json)

/-- A behaviour of the transport and the server: what each request gets. -/
abbrev Transport := Request → FetchOutcome

/-- The exceptions that can arise inside the `try` blocks: a rejected
`fetch`, a rejected `response.json()`, or a `TypeError` from a property
access on `null`. -/
inductive JsErr where
  | networkError
  | parseError
  | typeError

/-- Client-side state threaded through the operations: the browser storage
and the trace of requests issued so far (in order). -/
structure ClientState where
  storage : Storage
  trace : List Request

/-- A state with the given storage and no requests issued yet. -/
def startState (st : Storage) : ClientState :=
  { storage := st, trace := [] }

/-- Issue one `fetch`: record the request in the trace and consult the
transport for its outcome. -/
def fetchReq (t : Transport) (r : Request) (s : ClientState) :
    FetchOutcome × ClientState :=
  (t r, { s with trace := s.trace ++ [r] })

/-- The body of every session-create request:
`JSON.stringify({ user_id: "web_user" })`. -/
def createRequestBody : Json :=
  Json.obj [("user_id", Json.str "web_user")]

/-- The session-create request (`POST /api/sessions`). -/
def createRequest : Request :=
  Request.createSession createRequestBody

/-- The body of an interaction append:
`JSON.stringify({ interaction_type, query, results, metadata })`.
`JSON.stringify` drops a field whose value is `undefined`; the three
optional parameters have already been defaulted to `null` by the time the
body is built, so only `interaction_type` can be dropped. -/
def mkInteractionBody (interactionType query results metadata : JsVal) : Json :=
  Json.obj
    ((match interactionType with
      | none => []
      | some j => [("interaction_type", j)]) ++
     [("query", jsDefault query Json.null),
      ("results", jsDefault results Json.null),
      ("metadata", jsDefault metadata Json.null)])

/-- The body of a context update: `JSON.stringify({ context_data: contextData })`;
the field is dropped when the argument is `undefined`. -/
def mkContextBody (contextData : JsVal) : Json :=
  Json.obj
    (match contextData with
     | none => []
     | some j => [("context_data", j)])

/-- The create-new-session tail of `getSessionId` (reached when there is no
usable stored id, or the stored one failed validation):

```js
const response = await fetch(API_ENDPOINTS.SESSIONS, { method: "POST", ... ,
    body: JSON.stringify({ user_id: "web_user" }) });
if (response.ok) {
    const data = await response.json();
    sessionId = data.session_id;
    localStorage.setItem(SESSION_STORAGE_KEY, sessionId);
    return sessionId;
}
return null;
``` -/
def createNewSessionTry (t : Transport) (s : ClientState) :
    Except JsErr JsVal × ClientState :=
  match fetchReq t createRequest s with
  | (FetchOutcome.networkError, s1) => (Except.error JsErr.networkError, s1)
  | (FetchOutcome.response ok body, s1) =>
    if ok then
      match body with
      | none => (Except.error JsErr.parseError, s1)
      | some data =>
        if data.isNull then (Except.error JsErr.typeError, s1)
        else
          let stored := jsValToString (data.getField "session_id")
          (Except.ok (data.getField "session_id"),
           { s1 with storage := Storage.setItem s1.storage SESSION_STORAGE_KEY stored })
    else (Except.ok (some Json.null), s1)

/-- The `try` block of `SessionManager.getSessionId`:

```js
let sessionId = localStorage.getItem(SESSION_STORAGE_KEY);
if (sessionId) {
    const response = await fetch(API_ENDPOINTS.SESSION_BY_ID(sessionId));
    if (response.ok) {
        return sessionId;
    }
}
// fall through to createNewSessionTry
``` -/
def getSessionIdTry (t : Transport) (s : ClientState) :
    Except JsErr JsVal × ClientState :=
  match Storage.getItem s.storage SESSION_STORAGE_KEY with
  | none => createNewSessionTry t s
  | some sid =>
    if sid == "" then createNewSessionTry t s
    else
      match fetchReq t (Request.validateSession sid) s with
      | (FetchOutcome.networkError, s1) => (Except.error JsErr.networkError, s1)
      | (FetchOutcome.response ok _, s1) =>
        if ok then (Except.ok (some (Json.str sid)), s1)
        else createNewSessionTry t s1

/-- `SessionManager.getSessionId`: the `try` block with its `catch`, which
logs the error and returns `null`.  The result is `Except.ok` exactly when
no exception escapes to the caller. -/
def getSessionId (t : Transport) (s : ClientState) :
    Except JsErr JsVal × ClientState :=
  match getSessionIdTry t s with
  | (Except.error _, s1) => (Except.ok (some Json.null), s1)
  | r => r

/-- The `try` block of `SessionManager.logInteraction`:

```js
const sessionId = await this.getSessionId();
if (!sessionId) return false;
const response = await fetch(API_ENDPOINTS.SESSION_INTERACTIONS(sessionId),
    { method: "POST", ..., body: JSON.stringify({ interaction_type, query,
      results, metadata }) });
return response.ok;
``` -/
def logInteractionTry (t : Transport)
    (interactionType query results metadata : JsVal) (s : ClientState) :
    Except JsErr Bool × ClientState :=
  match getSessionId t s with
  | (Except.error e, s1) => (Except.error e, s1)
  | (Except.ok sid, s1) =>
    if !(JsVal.truthy sid) then (Except.ok false, s1)
    else
      match fetchReq t
          (Request.appendInteraction (jsValToString sid)
            (mkInteractionBody interactionType query results metadata)) s1 with
      | (FetchOutcome.networkError, s2) => (Except.error JsErr.networkError, s2)
      | (FetchOutcome.response ok _, s2) => (Except.ok ok, s2)

/-- `SessionManager.logInteraction` (the `catch` returns `false`).  The three
optional parameters default to `null` in the source; pass `some Json.null`
to model an omitted argument. -/
def logInteraction (t : Transport)
    (interactionType query results metadata : JsVal) (s : ClientState) :
    Except JsErr Bool × ClientState :=
  match logInteractionTry t interactionType query results metadata s with
  | (Except.error _, s1) => (Except.ok false, s1)
  | r => r

/-- The `try` block of `SessionManager.getHistory`:

```js
const sessionId = await this.getSessionId();
if (!sessionId) return [];
const response = await fetch(API_ENDPOINTS.SESSION_HISTORY(sessionId) + "?limit=" + limit);
if (response.ok) {
    const data = await response.json();
    return data.history || [];
}
return [];
```
(the interpolated limit is the `limit` argument; its default in the source
is `50`). -/
def getHistoryTry (t : Transport) (limit : Int) (s : ClientState) :
    Except JsErr JsVal × ClientState :=
  match getSessionId t s with
  | (Except.error e, s1) => (Except.error e, s1)
  | (Except.ok sid, s1) =>
    if !(JsVal.truthy sid) then (Except.ok (some (Json.arr [])), s1)
    else
      match fetchReq t (Request.fetchHistory (jsValToString sid) limit) s1 with
      | (FetchOutcome.networkError, s2) => (Except.error JsErr.networkError, s2)
      | (FetchOutcome.response ok body, s2) =>
        if ok then
          match body with
          | none => (Except.error JsErr.parseError, s2)
          | some data =>
            if data.isNull then (Except.error JsErr.typeError, s2)
            else
              (Except.ok
                (if JsVal.truthy (data.getField "history") then data.getField "history"
                 else some (Json.arr [])), s2)
        else (Except.ok (some (Json.arr [])), s2)

/-- `SessionManager.getHistory` (the `catch` returns `[]`). -/
def getHistory (t : Transport) (limit : Int) (s : ClientState) :
    Except JsErr JsVal × ClientState :=
  match getHistoryTry t limit s with
  | (Except.error _, s1) => (Except.ok (some (Json.arr [])), s1)
  | r => r

/-- The `try` block of `SessionManager.updateContext`:

```js
const sessionId = await this.getSessionId();
if (!sessionId) return false;
const response = await fetch(API_ENDPOINTS.SESSION_CONTEXT(sessionId),
    { method: "PUT", ..., body: JSON.stringify({ context_data: contextData }) });
return response.ok;
``` -/
def updateContextTry (t : Transport) (contextData : JsVal) (s : ClientState) :
    Except JsErr Bool × ClientState :=
  match getSessionId t s with
  | (Except.error e, s1) => (Except.error e, s1)
  | (Except.ok sid, s1) =>
    if !(JsVal.truthy sid) then (Except.ok false, s1)
    else
      match fetchReq t
          (Request.updateSessionContext (jsValToString sid)
            (mkContextBody contextData)) s1 with
      | (FetchOutcome.networkError, s2) => (Except.error JsErr.networkError, s2)
      | (FetchOutcome.response ok _, s2) => (Except.ok ok, s2)

/-- `SessionManager.updateContext` (the `catch` returns `false`). -/
def updateContext (t : Transport) (contextData : JsVal) (s : ClientState) :
    Except JsErr Bool × ClientState :=
  match updateContextTry t contextData s with
  | (Except.error _, s1) => (Except.ok false, s1)
  | r => r

/-- `SessionManager.clearSession`:
`localStorage.removeItem(SESSION_STORAGE_KEY)`.  No network call. -/
def clearSession (s : ClientState) : ClientState :=
  { s with storage := Storage.removeItem s.storage SESSION_STORAGE_KEY }

/-- Run `getSessionId` once per element of a list of transports (one
behaviour per call), collecting the results. -/
def runGetSessionIds : List Transport → ClientState →
    List (Except JsErr JsVal) × ClientState
  | [], s => ([], s)
  | t :: ts, s =>
    match getSessionId t s with
    | (r, s1) =>
      match runGetSessionIds ts s1 with
      | (rs, s2) => (r :: rs, s2)

/-- A transport outcome that is a plain failure: the promise rejects
(network failure) or the response is non-2xx. -/
def FetchOutcome.hardFail : FetchOutcome → Bool
  | FetchOutcome.networkError => true
  | FetchOutcome.response ok _ => !ok

/-- A transport outcome in the broader failure class of the spec: network
failure, non-2xx response, or a 2xx response whose body fails to parse. -/
def FetchOutcome.failing : FetchOutcome → Bool
  | FetchOutcome.networkError => true
  | FetchOutcome.response ok body => !ok || body.isNone

/-- Is this a session-create request? -/
def Request.isCreate : Request → Bool
  | Request.createSession _ => true
  | _ => false

/-- Is this a session-create request with the fixed body
`{ user_id: "web_user" }`? -/
def Request.isUserCreate : Request → Bool
  | Request.createSession (Json.obj [(k, Json.str u)]) =>
      k == "user_id" && u == "web_user"
  | _ => false

/-- Is this an interaction-append request? -/
def Request.isAppend : Request → Bool
  | Request.appendInteraction _ _ => true
  | _ => false

/-! ### Case lemmas for the session-create tail -/

theorem createNewSessionTry_netErr (t : Transport) (s : ClientState)
    (h : t createRequest = FetchOutcome.networkError) :
    createNewSessionTry t s =
      (Except.error JsErr.networkError,
       { s with trace := s.trace ++ [createRequest] }) := by
  simp [createNewSessionTry, fetchReq, h]

theorem createNewSessionTry_reject (t : Transport) (s : ClientState)
    (b : Option Json) (h : t createRequest = FetchOutcome.response false b) :
    createNewSessionTry t s =
      (Except.ok (some Json.null),
       { s with trace := s.trace ++ [createRequest] }) := by
  simp [createNewSessionTry, fetchReq, h]

theorem createNewSessionTry_badBody (t : Transport) (s : ClientState)
    (h : t createRequest = FetchOutcome.response true none) :
    createNewSessionTry t s =
      (Except.error JsErr.parseError,
       { s with trace := s.trace ++ [createRequest] }) := by
  simp [createNewSessionTry, fetchReq, h]

theorem createNewSessionTry_nullBody (t : Transport) (s : ClientState)
    (data : Json) (h : t createRequest = FetchOutcome.response true (some data))
    (hn : data.isNull = true) :
    createNewSessionTry t s =
      (Except.error JsErr.typeError,
       { s with trace := s.trace ++ [createRequest] }) := by
  simp [createNewSessionTry, fetchReq, h, hn]

theorem createNewSessionTry_success (t : Transport) (s : ClientState)
    (data : Json) (h : t createRequest = FetchOutcome.response true (some data))
    (hn : data.isNull = false) :
    createNewSessionTry t s =
      (Except.ok (data.getField "session_id"),
       { storage := Storage.setItem s.storage SESSION_STORAGE_KEY
           (jsValToString (data.getField "session_id")),
         trace := s.trace ++ [createRequest] }) := by
  simp [createNewSessionTry, fetchReq, h, hn]

/-! ### Case lemmas for the stored-id branch of getSessionId -/

theorem getSessionIdTry_miss (t : Transport) (s : ClientState)
    (h : Storage.getItem s.storage SESSION_STORAGE_KEY = none) :
    getSessionIdTry t s = createNewSessionTry t s := by
  simp [getSessionIdTry, h]

theorem getSessionIdTry_emptyStored (t : Transport) (s : ClientState)
    (h : Storage.getItem s.storage SESSION_STORAGE_KEY = some "") :
    getSessionIdTry t s = createNewSessionTry t s := by
  simp [getSessionIdTry, h]

theorem getSessionIdTry_stored_netErr (t : Transport) (s : ClientState)
    (sid : String) (h : Storage.getItem s.storage SESSION_STORAGE_KEY = some sid)
    (hs : sid ≠ "")
    (hv : t (Request.validateSession sid) = FetchOutcome.networkError) :
    getSessionIdTry t s =
      (Except.error JsErr.networkError,
       { s with trace := s.trace ++ [Request.validateSession sid] }) := by
  simp [getSessionIdTry, h, hs, fetchReq, hv]

theorem getSessionIdTry_stored_valid (t : Transport) (s : ClientState)
    (sid : String) (h : Storage.getItem s.storage SESSION_STORAGE_KEY = some sid)
    (hs : sid ≠ "") (b : Option Json)
    (hv : t (Request.validateSession sid) = FetchOutcome.response true b) :
    getSessionIdTry t s =
      (Except.ok (some (Json.str sid)),
       { s with trace := s.trace ++ [Request.validateSession sid] }) := by
  simp [getSessionIdTry, h, hs, fetchReq, hv]

theorem getSessionIdTry_stored_rejected (t : Transport) (s : ClientState)
    (sid : String) (h : Storage.getItem s.storage SESSION_STORAGE_KEY = some sid)
    (hs : sid ≠ "") (b : Option Json)
    (hv : t (Request.validateSession sid) = FetchOutcome.response false b) :
    getSessionIdTry t s =
      createNewSessionTry t
        { s with trace := s.trace ++ [Request.validateSession sid] } := by
  simp [getSessionIdTry, h, hs, fetchReq, hv]

/-! ### The catch wrapper -/

theorem getSessionId_of_try_error (t : Transport) (s : ClientState)
    (e : JsErr) (s1 : ClientState)
    (h : getSessionIdTry t s = (Except.error e, s1)) :
    getSessionId t s = (Except.ok (some Json.null), s1) := by
  simp [getSessionId, h]

theorem getSessionId_of_try_ok (t : Transport) (s : ClientState)
    (v : JsVal) (s1 : ClientState)
    (h : getSessionIdTry t s = (Except.ok v, s1)) :
    getSessionId t s = (Except.ok v, s1) := by
  simp [getSessionId, h]

/-- A create request whose body is not the fixed `{ user_id: "web_user" }`
document; the component never issues one. -/
def Request.isRogueCreate (r : Request) : Bool :=
  Request.isCreate r && !(Request.isUserCreate r)

/-- Is this value a JSON array? -/
def JsVal.isArray : JsVal → Bool
  | some (Json.arr _) => true
  | _ => false

/-- The operation completed without an exception reaching the caller. -/
def noThrow {α : Type} (r : Except JsErr α × ClientState) : Bool :=
  match r.1 with
  | Except.ok _ => true
  | Except.error _ => false

/-! ### Storage lemmas -/

theorem storage_setItem_getItem_self (st : Storage) (k v : String) :
    Storage.getItem (Storage.setItem st k v) k = some v := by
  simp [Storage.getItem, Storage.setItem, List.find?]

theorem storage_removeItem_getItem_self (st : Storage) (k : String) :
    Storage.getItem (Storage.removeItem st k) k = none := by
  induction st with
  | nil => rfl
  | cons p rest ih =>
    by_cases h : p.1 = k
    · have hb : (p.1 != k) = false := by simp [h]
      show Storage.getItem (List.filter (fun q => q.1 != k) (p :: rest)) k = none
      rw [List.filter_cons, hb]
      exact ih
    · have hb : (p.1 != k) = true := by simp [h]
      show Storage.getItem (List.filter (fun q => q.1 != k) (p :: rest)) k = none
      rw [List.filter_cons, hb]
      show Storage.getItem (p :: List.filter (fun q => q.1 != k) rest) k = none
      unfold Storage.getItem
      rw [List.find?_cons_of_neg]
      · exact ih
      · simp [h]

theorem storage_removeItem_getItem_other (st : Storage) (k k2 : String)
    (h : k2 ≠ k) :
    Storage.getItem (Storage.removeItem st k) k2 = Storage.getItem st k2 := by
  induction st with
  | nil => rfl
  | cons p rest ih =>
    by_cases hp : p.1 = k
    · have hb : (p.1 != k) = false := by simp [hp]
      have hb2 : (p.1 == k2) = false := by
        simp only [beq_eq_false_iff_ne, ne_eq, hp]
        exact fun he => h he.symm
      show Storage.getItem (List.filter (fun q => q.1 != k) (p :: rest)) k2 =
        Storage.getItem (p :: rest) k2
      rw [List.filter_cons, hb]
      unfold Storage.getItem
      rw [List.find?_cons_of_neg _ (by simp [hb2])]
      exact ih
    · have hb : (p.1 != k) = true := by simp [hp]
      show Storage.getItem (List.filter (fun q => q.1 != k) (p :: rest)) k2 =
        Storage.getItem (p :: rest) k2
      rw [List.filter_cons, hb]
      by_cases hp2 : p.1 = k2
      · show Storage.getItem (p :: List.filter (fun q => q.1 != k) rest) k2 = _
        unfold Storage.getItem
        rw [List.find?_cons_of_pos _ (by simp [hp2]),
          List.find?_cons_of_pos _ (by simp [hp2])]
      · show Storage.getItem (p :: List.filter (fun q => q.1 != k) rest) k2 = _
        unfold Storage.getItem
        rw [List.find?_cons_of_neg _ (by simp [hp2]),
          List.find?_cons_of_neg _ (by simp [hp2])]
        exact ih

/-! ### Never-raises lemmas: every public operation is catch-wrapped -/

theorem getSessionId_noThrow (t : Transport) (s : ClientState) :
    noThrow (getSessionId t s) = true := by
  unfold getSessionId
  rcases h : getSessionIdTry t s with ⟨r, s1⟩
  cases r <;> rfl

theorem logInteraction_noThrow (t : Transport)
    (interactionType query results metadata : JsVal) (s : ClientState) :
    noThrow (logInteraction t interactionType query results metadata s) = true := by
  unfold logInteraction
  rcases h : logInteractionTry t interactionType query results metadata s with ⟨r, s1⟩
  cases r <;> rfl

theorem getHistory_noThrow (t : Transport) (limit : Int) (s : ClientState) :
    noThrow (getHistory t limit s) = true := by
  unfold getHistory
  rcases h : getHistoryTry t limit s with ⟨r, s1⟩
  cases r <;> rfl

theorem updateContext_noThrow (t : Transport) (contextData : JsVal)
    (s : ClientState) :
    noThrow (updateContext t contextData s) = true := by
  unfold updateContext
  rcases h : updateContextTry t contextData s with ⟨r, s1⟩
  cases r <;> rfl

/-! ### A master case analysis of getSessionId -/

/-- The requests a `getSessionId` call issues before reaching the create
tail: nothing, or one (failed) validation of the stored id. -/
def createPrelude (s : ClientState) (pre : List Request) : Prop :=
  pre = [] ∨ ∃ sid, sid ≠ "" ∧
    Storage.getItem s.storage SESSION_STORAGE_KEY = some sid ∧
    pre = [Request.validateSession sid]

theorem createTail_cases (t : Transport) (s0 s1 : ClientState)
    (pre : List Request)
    (hst : s1.storage = s0.storage) (htr : s1.trace = s0.trace ++ pre)
    (htry : getSessionIdTry t s0 = createNewSessionTry t s1) :
    getSessionId t s0 = (Except.ok (some Json.null),
      { storage := s0.storage, trace := s0.trace ++ pre ++ [createRequest] }) ∨
    ∃ data, t createRequest = FetchOutcome.response true (some data) ∧
      data.isNull = false ∧
      getSessionId t s0 = (Except.ok (data.getField "session_id"),
        { storage := Storage.setItem s0.storage SESSION_STORAGE_KEY
            (jsValToString (data.getField "session_id")),
          trace := s0.trace ++ pre ++ [createRequest] }) := by
  rcases hc : t createRequest with _ | ⟨ok, body⟩
  · left
    have h4 := getSessionId_of_try_error t s0 _ _
      (htry.trans (createNewSessionTry_netErr t s1 hc))
    rw [h4]
    simp [hst, htr]
  · cases ok
    · left
      have h4 := getSessionId_of_try_ok t s0 _ _
        (htry.trans (createNewSessionTry_reject t s1 body hc))
      rw [h4]
      simp [hst, htr]
    · rcases body with _ | data
      · left
        have h4 := getSessionId_of_try_error t s0 _ _
          (htry.trans (createNewSessionTry_badBody t s1 hc))
        rw [h4]
        simp [hst, htr]
      · cases hn : data.isNull
        · right
          refine ⟨data, rfl, hn, ?_⟩
          have h4 := getSessionId_of_try_ok t s0 _ _
            (htry.trans (createNewSessionTry_success t s1 data hc hn))
          rw [h4]
          simp [hst, htr]
        · left
          have h4 := getSessionId_of_try_error t s0 _ _
            (htry.trans (createNewSessionTry_nullBody t s1 data hc hn))
          rw [h4]
          simp [hst, htr]

/-- Every run of `getSessionId` falls in exactly one of four classes:
stored id revalidated, validation network error, create path ending in
`null`, or create path ending in the session id supplied by the server. -/
theorem getSessionId_master (t : Transport) (s : ClientState) :
    (∃ sid b, Storage.getItem s.storage SESSION_STORAGE_KEY = some sid ∧
       sid ≠ "" ∧
       t (Request.validateSession sid) = FetchOutcome.response true b ∧
       getSessionId t s = (Except.ok (some (Json.str sid)),
         { s with trace := s.trace ++ [Request.validateSession sid] })) ∨
    (∃ sid, sid ≠ "" ∧
       Storage.getItem s.storage SESSION_STORAGE_KEY = some sid ∧
       t (Request.validateSession sid) = FetchOutcome.networkError ∧
       getSessionId t s = (Except.ok (some Json.null),
         { s with trace := s.trace ++ [Request.validateSession sid] })) ∨
    (∃ pre, createPrelude s pre ∧
      (getSessionId t s = (Except.ok (some Json.null),
         { storage := s.storage,
           trace := s.trace ++ pre ++ [createRequest] }) ∨
       ∃ data, t createRequest = FetchOutcome.response true (some data) ∧
         data.isNull = false ∧
         getSessionId t s = (Except.ok (data.getField "session_id"),
           { storage := Storage.setItem s.storage SESSION_STORAGE_KEY
               (jsValToString (data.getField "session_id")),
             trace := s.trace ++ pre ++ [createRequest] }))) := by
  rcases hg : Storage.getItem s.storage SESSION_STORAGE_KEY with _ | sid
  · right; right
    exact ⟨[], Or.inl rfl,
      createTail_cases t s s [] rfl (by simp) (getSessionIdTry_miss t s hg)⟩
  · by_cases hs : sid = ""
    · subst hs
      right; right
      exact ⟨[], Or.inl rfl,
        createTail_cases t s s [] rfl (by simp)
          (getSessionIdTry_emptyStored t s hg)⟩
    · rcases hv : t (Request.validateSession sid) with _ | ⟨ok, b⟩
      · right; left
        exact ⟨sid, hs, rfl, hv,
          getSessionId_of_try_error t s _ _
            (getSessionIdTry_stored_netErr t s sid hg hs hv)⟩
      · cases ok
        · right; right
          refine ⟨[Request.validateSession sid], Or.inr ⟨sid, hs, hg, rfl⟩, ?_⟩
          exact createTail_cases t s
            { s with trace := s.trace ++ [Request.validateSession sid] }
            [Request.validateSession sid] rfl rfl
            (getSessionIdTry_stored_rejected t s sid hg hs b hv)
        · left
          exact ⟨sid, b, rfl, hs, hv,
            getSessionId_of_try_ok t s _ _
              (getSessionIdTry_stored_valid t s sid hg hs b hv)⟩

theorem isCreate_createRequest : Request.isCreate createRequest = true := rfl

theorem isAppend_createRequest : Request.isAppend createRequest = false := rfl

theorem isAppend_validate (sid : String) :
    Request.isAppend (Request.validateSession sid) = false := rfl

theorem isCreate_validate (sid : String) :
    Request.isCreate (Request.validateSession sid) = false := rfl

theorem isRogueCreate_validate (sid : String) :
    Request.isRogueCreate (Request.validateSession sid) = false := rfl

theorem isUserCreate_createRequest : Request.isUserCreate createRequest = true := by
  decide

theorem isRogueCreate_createRequest : Request.isRogueCreate createRequest = false := by
  decide

/-- `getSessionId` always returns normally (the catch swallows every
exception). -/
theorem gsid_ok_shape (t : Transport) (s : ClientState) :
    ∃ v s1, getSessionId t s = (Except.ok v, s1) := by
  unfold getSessionId
  rcases h : getSessionIdTry t s with ⟨r, s1⟩
  cases r with
  | error e => exact ⟨some Json.null, s1, rfl⟩
  | ok v => exact ⟨v, s1, rfl⟩

/-- The requests one `getSessionId` call adds to the trace: no interaction
append, no create with a body other than the fixed one, and at most one
create. -/
theorem gsid_trace_shape (t : Transport) (s : ClientState) :
    ∃ new, (getSessionId t s).2.trace = s.trace ++ new ∧
      new.countP Request.isAppend = 0 ∧
      new.countP Request.isRogueCreate = 0 ∧
      new.countP Request.isCreate ≤ 1 := by
  rcases getSessionId_master t s with
    ⟨sid, b, _, _, _, heq⟩ | ⟨sid, _, _, _, heq⟩ | ⟨pre, hpre, hcase⟩
  · exact ⟨[Request.validateSession sid], by simp [heq],
      by simp [isAppend_validate], by simp [isRogueCreate_validate],
      by simp [isCreate_validate]⟩
  · exact ⟨[Request.validateSession sid], by simp [heq],
      by simp [isAppend_validate], by simp [isRogueCreate_validate],
      by simp [isCreate_validate]⟩
  · have htr : (getSessionId t s).2.trace = s.trace ++ (pre ++ [createRequest]) := by
      rcases hcase with heq | ⟨data, _, _, heq⟩ <;> simp [heq]
    rcases hpre with hpe | ⟨sid, _, _, hpe⟩
    · subst hpe
      refine ⟨[createRequest], by simpa using htr, ?_, ?_, ?_⟩
      · simp [isAppend_createRequest]
      · simp [isRogueCreate_createRequest]
      · simp [isCreate_createRequest]
    · subst hpe
      refine ⟨[Request.validateSession sid, createRequest], by simpa using htr,
        ?_, ?_, ?_⟩
      · simp [isAppend_validate, isAppend_createRequest]
      · simp [isRogueCreate_validate, isRogueCreate_createRequest]
      · simp [isCreate_validate, isCreate_createRequest]

/-- Under a transport whose every outcome is a network failure or a non-2xx
response, `getSessionId` yields `null` and leaves the storage unchanged. -/
theorem gsid_hardFail (t : Transport) (s : ClientState)
    (ht : ∀ r, FetchOutcome.hardFail (t r) = true) :
    (getSessionId t s).1 = Except.ok (some Json.null) ∧
    (getSessionId t s).2.storage = s.storage := by
  rcases getSessionId_master t s with
    ⟨sid, b, _, _, hv, _⟩ | ⟨sid, _, _, _, heq⟩ | ⟨pre, _, hcase⟩
  · have := ht (Request.validateSession sid)
    rw [hv] at this
    simp [FetchOutcome.hardFail] at this
  · simp [heq]
  · rcases hcase with heq | ⟨data, hc, _, _⟩
    · simp [heq]
    · have := ht createRequest
      rw [hc] at this
      simp [FetchOutcome.hardFail] at this

/-! ### Continuation lemmas for the three dependent operations -/

theorem logInteraction_of_gsid_falsy (t : Transport)
    (interactionType query results metadata : JsVal) (s : ClientState)
    (v : JsVal) (s1 : ClientState)
    (hg : getSessionId t s = (Except.ok v, s1))
    (hv : JsVal.truthy v = false) :
    logInteraction t interactionType query results metadata s =
      (Except.ok false, s1) := by
  unfold logInteraction logInteractionTry
  rw [hg]
  simp [hv]

theorem getHistory_of_gsid_falsy (t : Transport) (limit : Int)
    (s : ClientState) (v : JsVal) (s1 : ClientState)
    (hg : getSessionId t s = (Except.ok v, s1))
    (hv : JsVal.truthy v = false) :
    getHistory t limit s = (Except.ok (some (Json.arr [])), s1) := by
  unfold getHistory getHistoryTry
  rw [hg]
  simp [hv]

theorem updateContext_of_gsid_falsy (t : Transport) (contextData : JsVal)
    (s : ClientState) (v : JsVal) (s1 : ClientState)
    (hg : getSessionId t s = (Except.ok v, s1))
    (hv : JsVal.truthy v = false) :
    updateContext t contextData s = (Except.ok false, s1) := by
  unfold updateContext updateContextTry
  rw [hg]
  simp [hv]

theorem isCreate_append (sid : String) (body : Json) :
    Request.isCreate (Request.appendInteraction sid body) = false := rfl

theorem isRogueCreate_append (sid : String) (body : Json) :
    Request.isRogueCreate (Request.appendInteraction sid body) = false := rfl

theorem isCreate_history (sid : String) (limit : Int) :
    Request.isCreate (Request.fetchHistory sid limit) = false := rfl

theorem isRogueCreate_history (sid : String) (limit : Int) :
    Request.isRogueCreate (Request.fetchHistory sid limit) = false := rfl

theorem isCreate_context (sid : String) (body : Json) :
    Request.isCreate (Request.updateSessionContext sid body) = false := rfl

theorem isRogueCreate_context (sid : String) (body : Json) :
    Request.isRogueCreate (Request.updateSessionContext sid body) = false := rfl

theorem logInteraction_of_gsid_truthy (t : Transport)
    (interactionType query results metadata : JsVal) (s : ClientState)
    (v : JsVal) (s1 : ClientState)
    (hg : getSessionId t s = (Except.ok v, s1))
    (hv : JsVal.truthy v = true) :
    logInteraction t interactionType query results metadata s =
      (match t (Request.appendInteraction (jsValToString v)
          (mkInteractionBody interactionType query results metadata)) with
       | FetchOutcome.networkError => Except.ok false
       | FetchOutcome.response ok2 _ => Except.ok ok2,
       { s1 with trace := s1.trace ++
          [Request.appendInteraction (jsValToString v)
            (mkInteractionBody interactionType query results metadata)] }) := by
  unfold logInteraction logInteractionTry
  rw [hg]
  rcases ha : t (Request.appendInteraction (jsValToString v)
      (mkInteractionBody interactionType query results metadata)) with _ | ⟨ok2, b2⟩
  · simp [hv, fetchReq, ha]
  · cases ok2 <;> simp [hv, fetchReq, ha]

/-- The value `data.history || []` that a 2xx history response produces
once its body has been parsed; other outcomes produce `[]`. -/
def historyResult (o : FetchOutcome) : JsVal :=
  match o with
  | FetchOutcome.networkError => some (Json.arr [])
  | FetchOutcome.response ok2 body =>
    if ok2 then
      match body with
      | none => some (Json.arr [])
      | some data =>
        if data.isNull then some (Json.arr [])
        else if JsVal.truthy (data.getField "history") then data.getField "history"
        else some (Json.arr [])
    else some (Json.arr [])

theorem getHistory_of_gsid_truthy (t : Transport) (limit : Int)
    (s : ClientState) (v : JsVal) (s1 : ClientState)
    (hg : getSessionId t s = (Except.ok v, s1))
    (hv : JsVal.truthy v = true) :
    getHistory t limit s =
      (Except.ok (historyResult (t (Request.fetchHistory (jsValToString v) limit))),
       { s1 with trace := s1.trace ++
          [Request.fetchHistory (jsValToString v) limit] }) := by
  unfold getHistory getHistoryTry
  rw [hg]
  rcases ha : t (Request.fetchHistory (jsValToString v) limit) with _ | ⟨ok2, body⟩
  · simp [hv, fetchReq, ha, historyResult]
  · cases ok2
    · simp [hv, fetchReq, ha, historyResult]
    · rcases body with _ | data
      · simp [hv, fetchReq, ha, historyResult]
      · cases hn : data.isNull <;>
          simp [hv, fetchReq, ha, historyResult, hn]

theorem updateContext_of_gsid_truthy (t : Transport) (contextData : JsVal)
    (s : ClientState) (v : JsVal) (s1 : ClientState)
    (hg : getSessionId t s = (Except.ok v, s1))
    (hv : JsVal.truthy v = true) :
    updateContext t contextData s =
      (match t (Request.updateSessionContext (jsValToString v)
          (mkContextBody contextData)) with
       | FetchOutcome.networkError => Except.ok false
       | FetchOutcome.response ok2 _ => Except.ok ok2,
       { s1 with trace := s1.trace ++
          [Request.updateSessionContext (jsValToString v)
            (mkContextBody contextData)] }) := by
  unfold updateContext updateContextTry
  rw [hg]
  rcases ha : t (Request.updateSessionContext (jsValToString v)
      (mkContextBody contextData)) with _ | ⟨ok2, b2⟩
  · simp [hv, fetchReq, ha]
  · cases ok2 <;> simp [hv, fetchReq, ha]

/-! ### Trace shapes of the dependent operations -/

theorem logInteraction_trace_shape (t : Transport)
    (interactionType query results metadata : JsVal) (s : ClientState) :
    ∃ new, (logInteraction t interactionType query results metadata s).2.trace =
        s.trace ++ new ∧
      new.countP Request.isRogueCreate = 0 ∧
      new.countP Request.isCreate ≤ 1 := by
  rcases gsid_ok_shape t s with ⟨v, s1, hg⟩
  rcases gsid_trace_shape t s with ⟨gnew, hgt0, hA, hR, hC⟩
  rw [hg] at hgt0
  have hgt : s1.trace = s.trace ++ gnew := hgt0
  cases hv : JsVal.truthy v
  · rw [logInteraction_of_gsid_falsy t interactionType query results metadata
      s v s1 hg hv]
    exact ⟨gnew, hgt, hR, hC⟩
  · rw [logInteraction_of_gsid_truthy t interactionType query results metadata
      s v s1 hg hv]
    refine ⟨gnew ++ [Request.appendInteraction (jsValToString v)
      (mkInteractionBody interactionType query results metadata)], ?_, ?_, ?_⟩
    · simp [hgt]
    · simp [List.countP_append, hR, isRogueCreate_append]
    · simpa [List.countP_append, isCreate_append] using hC

theorem getHistory_trace_shape (t : Transport) (limit : Int) (s : ClientState) :
    ∃ new, (getHistory t limit s).2.trace = s.trace ++ new ∧
      new.countP Request.isRogueCreate = 0 ∧
      new.countP Request.isCreate ≤ 1 := by
  rcases gsid_ok_shape t s with ⟨v, s1, hg⟩
  rcases gsid_trace_shape t s with ⟨gnew, hgt0, hA, hR, hC⟩
  rw [hg] at hgt0
  have hgt : s1.trace = s.trace ++ gnew := hgt0
  cases hv : JsVal.truthy v
  · rw [getHistory_of_gsid_falsy t limit s v s1 hg hv]
    exact ⟨gnew, hgt, hR, hC⟩
  · rw [getHistory_of_gsid_truthy t limit s v s1 hg hv]
    refine ⟨gnew ++ [Request.fetchHistory (jsValToString v) limit], ?_, ?_, ?_⟩
    · simp [hgt]
    · simp [List.countP_append, hR, isRogueCreate_history]
    · simpa [List.countP_append, isCreate_history] using hC

theorem updateContext_trace_shape (t : Transport) (contextData : JsVal)
    (s : ClientState) :
    ∃ new, (updateContext t contextData s).2.trace = s.trace ++ new ∧
      new.countP Request.isRogueCreate = 0 ∧
      new.countP Request.isCreate ≤ 1 := by
  rcases gsid_ok_shape t s with ⟨v, s1, hg⟩
  rcases gsid_trace_shape t s with ⟨gnew, hgt0, hA, hR, hC⟩
  rw [hg] at hgt0
  have hgt : s1.trace = s.trace ++ gnew := hgt0
  cases hv : JsVal.truthy v
  · rw [updateContext_of_gsid_falsy t contextData s v s1 hg hv]
    exact ⟨gnew, hgt, hR, hC⟩
  · rw [updateContext_of_gsid_truthy t contextData s v s1 hg hv]
    refine ⟨gnew ++ [Request.updateSessionContext (jsValToString v)
      (mkContextBody contextData)], ?_, ?_, ?_⟩
    · simp [hgt]
    · simp [List.countP_append, hR, isRogueCreate_context]
    · simpa [List.countP_append, isCreate_context] using hC

/-! ### Concrete transports and storages used by witnesses and
counterexamples -/

/-- A transport on which every request fails at the network level. -/
def allNetErr : Transport := fun _ => FetchOutcome.networkError

/-- A transport whose every outcome is a 2xx response with a body that
fails to parse — one of the failure behaviours listed by the spec. -/
def allUnparseable : Transport := fun _ => FetchOutcome.response true none

/-- A storage holding the stored session id "abc". -/
def storedAbc : Storage := [(SESSION_STORAGE_KEY, "abc")]

/-- A well-behaved session service: create returns `{ session_id: "s-1" }`,
validation succeeds. -/
def goodServer : Transport := fun r =>
  match r with
  | Request.createSession _ =>
      FetchOutcome.response true (some (Json.obj [("session_id", Json.str "s-1")]))
  | Request.validateSession _ =>
      FetchOutcome.response true (some (Json.obj []))
  | _ => FetchOutcome.response true none

/-- A service whose create response carries an empty-string session id. -/
def emptyIdServer : Transport := fun r =>
  match r with
  | Request.createSession _ =>
      FetchOutcome.response true (some (Json.obj [("session_id", Json.str "")]))
  | _ => FetchOutcome.networkError

/-! ### Claim C1 -/

/-- C1, counterexample: under a transport whose every outcome is a 2xx
response with an unparseable body — one of the three failure behaviours the
claim quantifies over — a stored session id still validates successfully
(validation never reads the body) and the subsequent append also reports
success, so `logInteraction` returns `true` rather than its neutral value
`false`, and `getSessionId` returns the stored id rather than `null`. -/
theorem c1_counterexample :
    (logInteraction allUnparseable (some (Json.str "view")) (some Json.null)
        (some Json.null) (some Json.null) (startState storedAbc)).1 =
      Except.ok true ∧
    (getSessionId allUnparseable (startState storedAbc)).1 =
      Except.ok (some (Json.str "abc")) := by
  constructor <;> rfl

/-- C1 (amended): no operation ever propagates an exception; under a
transport where every request suffers a network failure or a non-2xx
response, every operation returns its neutral value (null, false, empty
array, false); and a 2xx response whose body fails to parse also degrades
to the neutral value at the two places where a body is actually parsed
(the session-create response and the history response).  Operations that
only test `response.ok` treat a 2xx response as success regardless of its
body. -/
theorem c1_failure_semantics (t : Transport) (s : ClientState)
    (interactionType query results metadata contextData : JsVal)
    (limit : Int) :
    (noThrow (getSessionId t s) = true ∧
     noThrow (logInteraction t interactionType query results metadata s) = true ∧
     noThrow (getHistory t limit s) = true ∧
     noThrow (updateContext t contextData s) = true) ∧
    ((∀ rq, FetchOutcome.hardFail (t rq) = true) →
      (getSessionId t s).1 = Except.ok (some Json.null) ∧
      (logInteraction t interactionType query results metadata s).1 =
        Except.ok false ∧
      (getHistory t limit s).1 = Except.ok (some (Json.arr [])) ∧
      (updateContext t contextData s).1 = Except.ok false) ∧
    (Storage.getItem s.storage SESSION_STORAGE_KEY = none →
      t createRequest = FetchOutcome.response true none →
      (getSessionId t s).1 = Except.ok (some Json.null)) ∧
    (∀ sid b, Storage.getItem s.storage SESSION_STORAGE_KEY = some sid →
      sid ≠ "" →
      t (Request.validateSession sid) = FetchOutcome.response true b →
      t (Request.fetchHistory sid limit) = FetchOutcome.response true none →
      (getHistory t limit s).1 = Except.ok (some (Json.arr []))) := by
  refine ⟨⟨getSessionId_noThrow t s,
    logInteraction_noThrow t interactionType query results metadata s,
    getHistory_noThrow t limit s,
    updateContext_noThrow t contextData s⟩, ?_, ?_, ?_⟩
  · intro ht
    rcases gsid_ok_shape t s with ⟨v, s1, hg⟩
    have h1 := (gsid_hardFail t s ht).1
    have hveq : (Except.ok v : Except JsErr JsVal) =
        Except.ok (some Json.null) := by
      rw [hg] at h1
      exact h1
    have hvnull : v = some Json.null := by simpa using hveq
    subst hvnull
    refine ⟨h1, ?_, ?_, ?_⟩
    · rw [logInteraction_of_gsid_falsy t interactionType query results metadata
        s (some Json.null) s1 hg rfl]
    · rw [getHistory_of_gsid_falsy t limit s (some Json.null) s1 hg rfl]
    · rw [updateContext_of_gsid_falsy t contextData s (some Json.null) s1 hg rfl]
  · intro hmiss hc
    have h3 := (getSessionIdTry_miss t s hmiss).trans
      (createNewSessionTry_badBody t s hc)
    rw [getSessionId_of_try_error t s _ _ h3]
  · intro sid b hst hsne hval hhist
    have h3 := getSessionId_of_try_ok t s _ _
      (getSessionIdTry_stored_valid t s sid hst hsne b hval)
    have htru : JsVal.truthy (some (Json.str sid)) = true := by
      simp [JsVal.truthy, hsne]
    rw [getHistory_of_gsid_truthy t limit s (some (Json.str sid)) _ h3 htru]
    simp [jsValToString, Json.toJsString, hhist, historyResult]

/-- C1, witness: with every request failing at the network level and no
stored id, each operation returns its neutral value. -/
theorem c1_failure_semantics_witness :
    (getSessionId allNetErr (startState [])).1 = Except.ok (some Json.null) ∧
    (logInteraction allNetErr (some Json.null) (some Json.null)
        (some Json.null) (some Json.null) (startState [])).1 = Except.ok false ∧
    (getHistory allNetErr 50 (startState [])).1 =
      Except.ok (some (Json.arr [])) ∧
    (updateContext allNetErr (some Json.null) (startState [])).1 =
      Except.ok false :=
  (c1_failure_semantics allNetErr (startState []) (some Json.null)
    (some Json.null) (some Json.null) (some Json.null) (some Json.null)
    50).2.1 (fun _ => rfl)

/-! ### Claim C2 -/

/-- C2, counterexample: a server whose 2xx create response carries
`{ session_id: "" }` makes `getSessionId` return the empty string — a
value that is neither a non-empty identifier nor null/none, contradicting
the claim that no other value can be returned. -/
theorem c2_counterexample :
    (getSessionId emptyIdServer (startState [])).1 =
      Except.ok (some (Json.str "")) ∧
    (Except.ok (some (Json.str "")) : Except JsErr JsVal) ≠
      Except.ok (some Json.null) := by
  refine ⟨rfl, ?_⟩
  intro h
  exact Json.noConfusion (Option.some.inj (Except.ok.inj h))

/-- C2 (amended): `getSessionId` never raises, for every transport
behaviour and state; and provided every 2xx create response the transport
produces carries a non-empty string `session_id`, its result is either a
non-empty session identifier or null. -/
theorem c2_ensureSessionId_shape (t : Transport) (s : ClientState)
    (hcontract : ∀ data,
      t createRequest = FetchOutcome.response true (some data) →
      ∃ sid, Json.getField data "session_id" = some (Json.str sid) ∧ sid ≠ "") :
    noThrow (getSessionId t s) = true ∧
    ((getSessionId t s).1 = Except.ok (some Json.null) ∨
     ∃ sid, sid ≠ "" ∧
       (getSessionId t s).1 = Except.ok (some (Json.str sid))) := by
  refine ⟨getSessionId_noThrow t s, ?_⟩
  rcases getSessionId_master t s with
    ⟨sid, b, _, hs, _, heq⟩ | ⟨sid, _, _, _, heq⟩ | ⟨pre, _, hcase⟩
  · exact Or.inr ⟨sid, hs, by simp [heq]⟩
  · exact Or.inl (by simp [heq])
  · rcases hcase with heq | ⟨data, hc, _, heq⟩
    · exact Or.inl (by simp [heq])
    · obtain ⟨sid, hf, hsne⟩ := hcontract data hc
      exact Or.inr ⟨sid, hsne, by simp [heq, hf]⟩

/-- C2, witness: against a contract-honouring service, a fresh client gets
the non-empty identifier supplied by the server. -/
theorem c2_ensureSessionId_shape_witness :
    noThrow (getSessionId goodServer (startState [])) = true ∧
    ((getSessionId goodServer (startState [])).1 = Except.ok (some Json.null) ∨
     ∃ sid, sid ≠ "" ∧
       (getSessionId goodServer (startState [])).1 =
         Except.ok (some (Json.str sid))) := by
  refine c2_ensureSessionId_shape goodServer (startState []) ?_
  intro data h
  have h2 : FetchOutcome.response true
      (some (Json.obj [("session_id", Json.str "s-1")])) =
      FetchOutcome.response true (some data) := h
  injection h2 with hok hbody
  injection hbody with hdata
  subst hdata
  exact ⟨"s-1", rfl, by decide⟩

/-! ### Claim C3 -/

theorem json_getField_isNull (data : Json) (k : String) (x : Json)
    (h : Json.getField data k = some x) : data.isNull = false := by
  cases data <;> simp_all [Json.getField, Json.isNull]

theorem jsValToString_str (v : String) :
    jsValToString (some (Json.str v)) = v := rfl

/-- The create tail issues exactly one create request and, when it
succeeds with a string id, persists and returns it. -/
theorem createPath_exact_one (t : Transport) (s0 s1 : ClientState)
    (pre : List Request)
    (hst : s1.storage = s0.storage) (htr : s1.trace = s0.trace ++ pre)
    (hpre : pre.countP Request.isCreate = 0)
    (htry : getSessionIdTry t s0 = createNewSessionTry t s1) :
    (getSessionId t s0).2.trace.countP Request.isCreate =
      s0.trace.countP Request.isCreate + 1 ∧
    (∀ data sid2, t createRequest = FetchOutcome.response true (some data) →
      Json.getField data "session_id" = some (Json.str sid2) →
      Storage.getItem (getSessionId t s0).2.storage SESSION_STORAGE_KEY =
        some sid2 ∧
      (getSessionId t s0).1 = Except.ok (some (Json.str sid2))) := by
  constructor
  · have htrace : (getSessionId t s0).2.trace =
        s0.trace ++ pre ++ [createRequest] := by
      rcases createTail_cases t s0 s1 pre hst htr htry with
        heq | ⟨data, _, _, heq⟩ <;> simp [heq]
    rw [htrace]
    simp [List.countP_append, hpre, isCreate_createRequest]
  · intro data sid2 hc2 hf
    have hn : data.isNull = false := json_getField_isNull data _ _ hf
    have h4 := getSessionId_of_try_ok t s0 _ _
      (htry.trans (createNewSessionTry_success t s1 data hc2 hn))
    rw [hf, jsValToString_str] at h4
    constructor
    · rw [h4]
      exact storage_setItem_getItem_self s1.storage SESSION_STORAGE_KEY sid2
    · rw [h4]

/-- C3: one `getSessionId` call issues at most one create request; in the
two miss cases (no usable stored id, or a stored id the server rejects
with a non-2xx response) it issues exactly one; and when that create
succeeds with a string `session_id`, the returned id is persisted in local
storage (overwriting any stale id) and returned to the caller. -/
theorem c3_single_create (t : Transport) (st : Storage) :
    (getSessionId t (startState st)).2.trace.countP Request.isCreate ≤ 1 ∧
    ((Storage.getItem st SESSION_STORAGE_KEY = none ∨
      Storage.getItem st SESSION_STORAGE_KEY = some "" ∨
      (∃ sid b, Storage.getItem st SESSION_STORAGE_KEY = some sid ∧
        sid ≠ "" ∧
        t (Request.validateSession sid) = FetchOutcome.response false b)) →
      ((getSessionId t (startState st)).2.trace.countP Request.isCreate = 1 ∧
       (∀ data sid2,
         t createRequest = FetchOutcome.response true (some data) →
         Json.getField data "session_id" = some (Json.str sid2) →
         Storage.getItem (getSessionId t (startState st)).2.storage
           SESSION_STORAGE_KEY = some sid2 ∧
         (getSessionId t (startState st)).1 =
           Except.ok (some (Json.str sid2))))) := by
  constructor
  · rcases gsid_trace_shape t (startState st) with ⟨new, htr, _, _, hC⟩
    rw [htr]
    simpa [startState] using hC
  · intro hmiss
    have hone :
        (getSessionId t (startState st)).2.trace.countP Request.isCreate =
          (startState st).trace.countP Request.isCreate + 1 ∧
        (∀ data sid2,
          t createRequest = FetchOutcome.response true (some data) →
          Json.getField data "session_id" = some (Json.str sid2) →
          Storage.getItem (getSessionId t (startState st)).2.storage
            SESSION_STORAGE_KEY = some sid2 ∧
          (getSessionId t (startState st)).1 =
            Except.ok (some (Json.str sid2))) := by
      rcases hmiss with h0 | h0 | ⟨sid, b, hsid, hsne, hrej⟩
      · exact createPath_exact_one t (startState st) (startState st) []
          rfl (by simp) (by simp) (getSessionIdTry_miss t (startState st) h0)
      · exact createPath_exact_one t (startState st) (startState st) []
          rfl (by simp) (by simp)
          (getSessionIdTry_emptyStored t (startState st) h0)
      · exact createPath_exact_one t (startState st)
          { startState st with
            trace := (startState st).trace ++ [Request.validateSession sid] }
          [Request.validateSession sid] rfl rfl
          (by simp [isCreate_validate])
          (getSessionIdTry_stored_rejected t (startState st) sid hsid hsne b hrej)
    exact ⟨hone.1, hone.2⟩

/-- C3, witness: a fresh client against the contract-honouring service
issues exactly one create and persists the returned id. -/
theorem c3_single_create_witness :
    (getSessionId goodServer (startState [])).2.trace.countP
      Request.isCreate ≤ 1 ∧
    (getSessionId goodServer (startState [])).2.trace.countP
      Request.isCreate = 1 ∧
    Storage.getItem (getSessionId goodServer (startState [])).2.storage
      SESSION_STORAGE_KEY = some "s-1" ∧
    (getSessionId goodServer (startState [])).1 =
      Except.ok (some (Json.str "s-1")) := by
  have h := c3_single_create goodServer []
  have h2 := h.2 (Or.inl rfl)
  have h3 := h2.2 (Json.obj [("session_id", Json.str "s-1")]) "s-1" rfl rfl
  exact ⟨h.1, h2.1, h3.1, h3.2⟩

/-! ### Claim C4 -/

/-- C4: while the stored id keeps validating successfully, every
`getSessionId` call returns the same identifier, the storage never
changes, and the only requests issued are the validation probes — in
particular no create request. -/
theorem c4_idempotent_read (ts : List Transport) (sid : String)
    (s : ClientState) (hsne : sid ≠ "")
    (hst : Storage.getItem s.storage SESSION_STORAGE_KEY = some sid)
    (hok : ∀ t ∈ ts, ∃ b,
      t (Request.validateSession sid) = FetchOutcome.response true b) :
    (∀ r ∈ (runGetSessionIds ts s).1,
      r = Except.ok (some (Json.str sid))) ∧
    (runGetSessionIds ts s).2.storage = s.storage ∧
    (runGetSessionIds ts s).2.trace =
      s.trace ++ ts.map (fun _ => Request.validateSession sid) := by
  revert hst hok
  induction ts generalizing s with
  | nil =>
    intro hst hok
    refine ⟨?_, rfl, by simp [runGetSessionIds]⟩
    intro r hr
    simp [runGetSessionIds] at hr
  | cons t rest ih =>
    intro hst hok
    obtain ⟨b, hv⟩ := hok t (by simp)
    have h1 := getSessionId_of_try_ok t s _ _
      (getSessionIdTry_stored_valid t s sid hst hsne b hv)
    have hok2 : ∀ t2 ∈ rest, ∃ b2,
        t2 (Request.validateSession sid) = FetchOutcome.response true b2 :=
      fun t2 ht2 => hok t2 (by simp [ht2])
    have hst2 : Storage.getItem
        ({ s with trace := s.trace ++ [Request.validateSession sid] } :
          ClientState).storage SESSION_STORAGE_KEY = some sid := hst
    have ih2 := ih { s with trace := s.trace ++ [Request.validateSession sid] }
      hst2 hok2
    simp only [runGetSessionIds]
    rw [h1]
    rcases hrun : runGetSessionIds rest
        { s with trace := s.trace ++ [Request.validateSession sid] } with
      ⟨rs, s2⟩
    rw [hrun] at ih2
    refine ⟨?_, ih2.2.1, ?_⟩
    · intro r hr
      rcases List.mem_cons.mp hr with hr | hr
      · exact hr
      · exact ih2.1 r hr
    · have h5 : s2.trace =
          (s.trace ++ [Request.validateSession sid]) ++
            rest.map (fun _ => Request.validateSession sid) := ih2.2.2
      rw [h5]
      simp

/-- C4, witness: two consecutive calls against a confirming server both
return the stored id and issue only validations. -/
theorem c4_idempotent_read_witness :
    (runGetSessionIds [goodServer, goodServer]
      (startState [(SESSION_STORAGE_KEY, "abc")])).2.storage =
      [(SESSION_STORAGE_KEY, "abc")] ∧
    (runGetSessionIds [goodServer, goodServer]
      (startState [(SESSION_STORAGE_KEY, "abc")])).2.trace =
      [Request.validateSession "abc", Request.validateSession "abc"] := by
  have h := c4_idempotent_read [goodServer, goodServer] "abc"
    (startState [(SESSION_STORAGE_KEY, "abc")]) (by decide) rfl ?_
  · exact ⟨h.2.1, by simpa using h.2.2⟩
  · intro t2 ht2
    have : t2 = goodServer := by
      rcases List.mem_cons.mp ht2 with h2 | h2
      · exact h2
      · simpa using h2
    subst this
    exact ⟨some (Json.obj []), rfl⟩

/-! ### Claim C5 -/

/-- A server that answers any history fetch — whatever the requested
limit — with one record, and validates any session. -/
def overLongHistoryServer : Transport := fun r =>
  match r with
  | Request.fetchHistory _ _ =>
      FetchOutcome.response true
        (some (Json.obj [("history", Json.arr [Json.obj []])]))
  | _ => FetchOutcome.response true none

/-- A server answering history fetches with a single record and failing
everything else except validation. -/
def boundedServer : Transport := fun r =>
  match r with
  | Request.fetchHistory _ _ =>
      FetchOutcome.response true
        (some (Json.obj [("history", Json.arr [Json.obj []])]))
  | Request.validateSession _ => FetchOutcome.response true none
  | _ => FetchOutcome.networkError

/-- C5, counterexample: the client never truncates: with `limit = 0`, a 2xx
history response carrying one record makes `getHistory` return one record,
more than the requested limit. -/
theorem c5_counterexample :
    (getHistory overLongHistoryServer 0
      (startState [(SESSION_STORAGE_KEY, "abc")])).1 =
      Except.ok (some (Json.arr [Json.obj []])) := by
  rfl

/-- The server-side contract for one history response body: its `history`
field is an array of at most `limit` records, or missing/falsy. -/
def historyBounded (data : Json) (limit : Int) : Prop :=
  match Json.getField data "history" with
  | some (Json.arr l) => (l.length : Int) ≤ limit
  | h => JsVal.truthy h = false

/-- C5 (amended): `getHistory` never raises; it forwards `limit` to the
server and returns the supplied history verbatim, so it returns at most
`limit` records whenever the server honours the limit (for a nonnegative
limit); and it returns the empty array when the session resolves to a
falsy value or when the history request itself fails (network failure or
non-2xx). -/
theorem c5_getHistory_bounded (t : Transport) (limit : Int)
    (s : ClientState) :
    noThrow (getHistory t limit s) = true ∧
    (0 ≤ limit →
      (∀ sid data,
        t (Request.fetchHistory sid limit) =
          FetchOutcome.response true (some data) →
        historyBounded data limit) →
      ∃ l, (getHistory t limit s).1 = Except.ok (some (Json.arr l)) ∧
        (l.length : Int) ≤ limit) ∧
    (∀ v s1, getSessionId t s = (Except.ok v, s1) →
      JsVal.truthy v = false →
      (getHistory t limit s).1 = Except.ok (some (Json.arr []))) ∧
    (∀ v s1, getSessionId t s = (Except.ok v, s1) →
      JsVal.truthy v = true →
      FetchOutcome.hardFail (t (Request.fetchHistory (jsValToString v) limit)) =
        true →
      (getHistory t limit s).1 = Except.ok (some (Json.arr []))) := by
  refine ⟨getHistory_noThrow t limit s, ?_, ?_, ?_⟩
  · intro hlim hbound
    rcases gsid_ok_shape t s with ⟨v, s1, hg⟩
    cases hv : JsVal.truthy v
    · rw [getHistory_of_gsid_falsy t limit s v s1 hg hv]
      exact ⟨[], rfl, by simpa using hlim⟩
    · rw [getHistory_of_gsid_truthy t limit s v s1 hg hv]
      rcases ho : t (Request.fetchHistory (jsValToString v) limit) with
        _ | ⟨ok2, body⟩
      · exact ⟨[], by simp [historyResult], by simpa using hlim⟩
      · cases ok2
        · exact ⟨[], by simp [historyResult], by simpa using hlim⟩
        · rcases body with _ | data
          · exact ⟨[], by simp [historyResult], by simpa using hlim⟩
          · have hb := hbound (jsValToString v) data ho
            cases hn : data.isNull
            · rcases hfh : Json.getField data "history" with _ | j
              · refine ⟨[], ?_, by simpa using hlim⟩
                simp [historyResult, hn, hfh, JsVal.truthy]
              · simp only [historyBounded, hfh] at hb
                cases j with
                | arr l =>
                  refine ⟨l, ?_, hb⟩
                  simp [historyResult, hn, hfh, JsVal.truthy]
                | null =>
                  refine ⟨[], ?_, by simpa using hlim⟩
                  simp [historyResult, hn, hfh, JsVal.truthy]
                | bool bb =>
                  refine ⟨[], ?_, by simpa using hlim⟩
                  simp only [JsVal.truthy] at hb
                  simp [historyResult, hn, hfh, JsVal.truthy, hb]
                | num nn =>
                  refine ⟨[], ?_, by simpa using hlim⟩
                  simp only [JsVal.truthy] at hb
                  simp [historyResult, hn, hfh, JsVal.truthy, hb]
                | str ss =>
                  refine ⟨[], ?_, by simpa using hlim⟩
                  simp only [JsVal.truthy] at hb
                  simp [historyResult, hn, hfh, JsVal.truthy, hb]
                | obj ff =>
                  refine ⟨[], ?_, by simpa using hlim⟩
                  simp only [JsVal.truthy] at hb
                  simp at hb
            · refine ⟨[], ?_, by simpa using hlim⟩
              simp [historyResult, hn]
  · intro v s1 hg hv
    rw [getHistory_of_gsid_falsy t limit s v s1 hg hv]
  · intro v s1 hg hv hfail
    rw [getHistory_of_gsid_truthy t limit s v s1 hg hv]
    rcases ho : t (Request.fetchHistory (jsValToString v) limit) with
      _ | ⟨ok2, body⟩
    · simp [historyResult]
    · rw [ho] at hfail
      cases ok2
      · simp [historyResult]
      · simp [FetchOutcome.hardFail] at hfail

/-- C5, witness: a stored session, a server honouring `limit = 5` with one
record: the result is an array of at most five records. -/
theorem c5_getHistory_bounded_witness :
    ∃ l, (getHistory boundedServer 5
        (startState [(SESSION_STORAGE_KEY, "abc")])).1 =
      Except.ok (some (Json.arr l)) ∧ (l.length : Int) ≤ 5 := by
  refine (c5_getHistory_bounded boundedServer 5
    (startState [(SESSION_STORAGE_KEY, "abc")])).2.1 (by norm_num) ?_
  intro sid data h
  have h2 : FetchOutcome.response true
      (some (Json.obj [("history", Json.arr [Json.obj []])])) =
      FetchOutcome.response true (some data) := h
  injection h2 with hok hbody
  injection hbody with hdata
  subst hdata
  show ((List.length [Json.obj []] : Int) ≤ 5)
  norm_num

/-! ### Claim C6 -/

theorem isAppend_append (sid : String) (body : Json) :
    Request.isAppend (Request.appendInteraction sid body) = true := rfl

/-- C6: when session resolution yields a falsy value, `logInteraction`
returns `false` immediately (no exception escapes, the result is an
ordinary return), and the requests issued contain no interaction
append. -/
theorem c6_logInteraction_no_session (t : Transport)
    (interactionType query results metadata : JsVal) (st : Storage)
    (v : JsVal) (s1 : ClientState)
    (hg : getSessionId t (startState st) = (Except.ok v, s1))
    (hv : JsVal.truthy v = false) :
    logInteraction t interactionType query results metadata (startState st) =
      (Except.ok false, s1) ∧
    (logInteraction t interactionType query results metadata
      (startState st)).2.trace.countP Request.isAppend = 0 := by
  have h1 := logInteraction_of_gsid_falsy t interactionType query results
    metadata (startState st) v s1 hg hv
  refine ⟨h1, ?_⟩
  rcases gsid_trace_shape t (startState st) with ⟨new, htr, hA, _, _⟩
  rw [hg] at htr
  have htr2 : s1.trace = new := by simpa [startState] using htr
  rw [h1]
  show s1.trace.countP Request.isAppend = 0
  rw [htr2]
  exact hA

/-- C6, witness: unreachable backend, fresh client: resolution yields
`null`, `logInteraction` returns `false` and appends nothing. -/
theorem c6_logInteraction_no_session_witness :
    logInteraction allNetErr (some (Json.str "view")) (some Json.null)
        (some Json.null) (some Json.null) (startState []) =
      (Except.ok false, { storage := [], trace := [createRequest] }) ∧
    (logInteraction allNetErr (some (Json.str "view")) (some Json.null)
      (some Json.null) (some Json.null)
      (startState [])).2.trace.countP Request.isAppend = 0 :=
  c6_logInteraction_no_session allNetErr (some (Json.str "view"))
    (some Json.null) (some Json.null) (some Json.null) []
    (some Json.null) { storage := [], trace := [createRequest] } rfl rfl

/-! ### Claim C7 -/

/-- C7: with a stored id the server confirms, one `logInteraction(kind,
query, results, metadata)` call issues exactly one append request, to the
interaction endpoint of that session, whose body carries exactly the four
fields — `kind` under the name `interaction_type` and the optional
arguments defaulted to `null`. -/
theorem c7_logInteraction_body (t : Transport) (st : Storage) (sid : String)
    (interactionType : Json) (query results metadata : JsVal)
    (b : Option Json) (hsne : sid ≠ "")
    (hst : Storage.getItem st SESSION_STORAGE_KEY = some sid)
    (hval : t (Request.validateSession sid) = FetchOutcome.response true b) :
    (logInteraction t (some interactionType) query results metadata
      (startState st)).2.trace =
      [Request.validateSession sid,
       Request.appendInteraction sid
         (Json.obj [("interaction_type", interactionType),
                    ("query", jsDefault query Json.null),
                    ("results", jsDefault results Json.null),
                    ("metadata", jsDefault metadata Json.null)])] ∧
    (logInteraction t (some interactionType) query results metadata
      (startState st)).2.trace.countP Request.isAppend = 1 := by
  have hg := getSessionId_of_try_ok t (startState st) _ _
    (getSessionIdTry_stored_valid t (startState st) sid hst hsne b hval)
  have htru : JsVal.truthy (some (Json.str sid)) = true := by
    simp [JsVal.truthy, hsne]
  have h2 := logInteraction_of_gsid_truthy t (some interactionType) query
    results metadata (startState st) (some (Json.str sid)) _ hg htru
  rw [h2]
  constructor
  · show ((startState st).trace ++ [Request.validateSession sid]) ++
      [Request.appendInteraction (jsValToString (some (Json.str sid)))
        (mkInteractionBody (some interactionType) query results metadata)] = _
    simp [startState, jsValToString_str, mkInteractionBody]
  · show (((startState st).trace ++ [Request.validateSession sid]) ++
      [Request.appendInteraction (jsValToString (some (Json.str sid)))
        (mkInteractionBody (some interactionType) query results
          metadata)]).countP Request.isAppend = 1
    simp [startState, List.countP_append, isAppend_validate, isAppend_append]

/-- C7, witness: `logInteraction("view", null, { suspect_id: "X" })` with a
valid stored session issues one append whose body is
`{ interaction_type: "view", query: null, results: { suspect_id: "X" },
metadata: null }`. -/
theorem c7_logInteraction_body_witness :
    (logInteraction boundedServer (some (Json.str "view")) (some Json.null)
      (some (Json.obj [("suspect_id", Json.str "X")])) (some Json.null)
      (startState [(SESSION_STORAGE_KEY, "s9")])).2.trace =
      [Request.validateSession "s9",
       Request.appendInteraction "s9"
         (Json.obj [("interaction_type", Json.str "view"),
                    ("query", Json.null),
                    ("results", Json.obj [("suspect_id", Json.str "X")]),
                    ("metadata", Json.null)])] ∧
    (logInteraction boundedServer (some (Json.str "view")) (some Json.null)
      (some (Json.obj [("suspect_id", Json.str "X")])) (some Json.null)
      (startState [(SESSION_STORAGE_KEY, "s9")])).2.trace.countP
        Request.isAppend = 1 :=
  c7_logInteraction_body boundedServer [(SESSION_STORAGE_KEY, "s9")] "s9"
    (Json.str "view") (some Json.null)
    (some (Json.obj [("suspect_id", Json.str "X")])) (some Json.null)
    none (by decide) rfl rfl

/-! ### Claim C8 -/

/-- C8: `clearSession` issues no network request (the trace is untouched),
removes exactly the session-id key (any other storage key is preserved),
and the next `getSessionId` call goes straight to provisioning: its trace
is exactly one create request. -/
theorem c8_clearSession_frame (s : ClientState) (k : String) (t : Transport) :
    (clearSession s).trace = s.trace ∧
    Storage.getItem (clearSession s).storage SESSION_STORAGE_KEY = none ∧
    (k ≠ SESSION_STORAGE_KEY →
      Storage.getItem (clearSession s).storage k =
        Storage.getItem s.storage k) ∧
    (getSessionId t (startState (clearSession s).storage)).2.trace =
      [createRequest] := by
  refine ⟨rfl, storage_removeItem_getItem_self s.storage SESSION_STORAGE_KEY,
    fun hk => storage_removeItem_getItem_other s.storage
      SESSION_STORAGE_KEY k hk, ?_⟩
  have hmiss : Storage.getItem
      (startState (clearSession s).storage).storage SESSION_STORAGE_KEY =
      none := storage_removeItem_getItem_self s.storage SESSION_STORAGE_KEY
  have htry := getSessionIdTry_miss t (startState (clearSession s).storage)
    hmiss
  rcases createTail_cases t (startState (clearSession s).storage)
      (startState (clearSession s).storage) [] rfl (by simp) htry with
    heq | ⟨data, _, _, heq⟩ <;>
    (rw [heq]; simp [startState])

/-- A client state holding a session id and one unrelated storage key. -/
def twoKeyState : ClientState :=
  { storage := [(SESSION_STORAGE_KEY, "abc"), ("other", "v")], trace := [] }

/-- C8, witness: clearing a storage with a session id and another key
leaves the latter intact, and the next call against an unreachable server
still issues exactly the create request. -/
theorem c8_clearSession_frame_witness :
    (clearSession twoKeyState).trace = [] ∧
    Storage.getItem (clearSession twoKeyState).storage
      SESSION_STORAGE_KEY = none ∧
    Storage.getItem (clearSession twoKeyState).storage "other" =
      Storage.getItem twoKeyState.storage "other" ∧
    (getSessionId allNetErr
      (startState (clearSession twoKeyState).storage)).2.trace =
      [createRequest] := by
  have h := c8_clearSession_frame twoKeyState "other" allNetErr
  exact ⟨h.1, h.2.1, h.2.2.1 (by decide), h.2.2.2⟩

/-! ### Claim C9 -/

/-- C9: every session-create request any operation issues carries the
fixed body `{ user_id: "web_user" }` — the trace of each operation,
started from a fresh trace with arbitrary storage, transport and
arguments, contains no create request with any other body. -/
theorem c9_fixed_create_body (t : Transport) (st : Storage)
    (interactionType query results metadata contextData : JsVal)
    (limit : Int) :
    (getSessionId t (startState st)).2.trace.countP
      Request.isRogueCreate = 0 ∧
    (logInteraction t interactionType query results metadata
      (startState st)).2.trace.countP Request.isRogueCreate = 0 ∧
    (getHistory t limit (startState st)).2.trace.countP
      Request.isRogueCreate = 0 ∧
    (updateContext t contextData (startState st)).2.trace.countP
      Request.isRogueCreate = 0 := by
  refine ⟨?_, ?_, ?_, ?_⟩
  · rcases gsid_trace_shape t (startState st) with ⟨new, htr, _, hR, _⟩
    rw [htr]
    simpa [startState] using hR
  · rcases logInteraction_trace_shape t interactionType query results metadata
      (startState st) with ⟨new, htr, hR, _⟩
    rw [htr]
    simpa [startState] using hR
  · rcases getHistory_trace_shape t limit (startState st) with
      ⟨new, htr, hR, _⟩
    rw [htr]
    simpa [startState] using hR
  · rcases updateContext_trace_shape t contextData (startState st) with
      ⟨new, htr, hR, _⟩
    rw [htr]
    simpa [startState] using hR

/-! ### Claim C10 -/

/-- A server whose 2xx history response carries a truthy non-array
`history` field. -/
def truthyHistoryServer : Transport := fun r =>
  match r with
  | Request.fetchHistory _ _ =>
      FetchOutcome.response true (some (Json.obj [("history", Json.num 1)]))
  | _ => FetchOutcome.response true none

/-- A server whose 2xx history response has no `history` field at all. -/
def falsyHistoryServer : Transport := fun r =>
  match r with
  | Request.fetchHistory _ _ =>
      FetchOutcome.response true (some (Json.obj [("other", Json.num 1)]))
  | _ => FetchOutcome.response true none

/-- C10, counterexample: a 2xx history response with a truthy non-array
`history` field (here the number 1) is returned verbatim, so `getHistory`
does not always return an array. -/
theorem c10_counterexample :
    (getHistory truthyHistoryServer 50
      (startState [(SESSION_STORAGE_KEY, "abc")])).1 =
      Except.ok (some (Json.num 1)) ∧
    JsVal.isArray (some (Json.num 1)) = false := by
  exact ⟨rfl, rfl⟩

theorem json_isNull_eq_null (data : Json) (h : data.isNull = true) :
    data = Json.null := by
  cases data <;> simp_all [Json.isNull]

/-- C10 (amended): for every 2xx history response whose parsed body has a
missing, null or otherwise falsy `history` field, `getHistory` returns the
empty array; when the field is truthy it is returned verbatim (an array
exactly when the server sent an array). -/
theorem c10_history_fallback (t : Transport) (limit : Int) (st : Storage)
    (sid : String) (b : Option Json) (data : Json) (hsne : sid ≠ "")
    (hst : Storage.getItem st SESSION_STORAGE_KEY = some sid)
    (hval : t (Request.validateSession sid) = FetchOutcome.response true b)
    (hhist : t (Request.fetchHistory sid limit) =
      FetchOutcome.response true (some data)) :
    (JsVal.truthy (Json.getField data "history") = false →
      (getHistory t limit (startState st)).1 =
        Except.ok (some (Json.arr []))) ∧
    (JsVal.truthy (Json.getField data "history") = true →
      (getHistory t limit (startState st)).1 =
        Except.ok (Json.getField data "history")) := by
  have hg := getSessionId_of_try_ok t (startState st) _ _
    (getSessionIdTry_stored_valid t (startState st) sid hst hsne b hval)
  have htru : JsVal.truthy (some (Json.str sid)) = true := by
    simp [JsVal.truthy, hsne]
  have h2 := getHistory_of_gsid_truthy t limit (startState st)
    (some (Json.str sid)) _ hg htru
  rw [jsValToString_str] at h2
  rw [h2]
  cases hn : data.isNull
  · constructor
    · intro hf
      show Except.ok (historyResult (t (Request.fetchHistory sid limit))) = _
      rw [hhist]
      simp [historyResult, hn, hf]
    · intro hf
      show Except.ok (historyResult (t (Request.fetchHistory sid limit))) = _
      rw [hhist]
      simp [historyResult, hn, hf]
  · have hdn := json_isNull_eq_null data hn
    subst hdn
    constructor
    · intro hf
      show Except.ok (historyResult (t (Request.fetchHistory sid limit))) = _
      rw [hhist]
      simp [historyResult, Json.isNull]
    · intro hf
      simp [Json.getField, JsVal.truthy] at hf

/-- C10, witness: a 2xx history response without a `history` field yields
the empty array. -/
theorem c10_history_fallback_witness :
    (getHistory falsyHistoryServer 50
      (startState [(SESSION_STORAGE_KEY, "abc")])).1 =
      Except.ok (some (Json.arr [])) :=
  (c10_history_fallback falsyHistoryServer 50 [(SESSION_STORAGE_KEY, "abc")]
    "abc" none (Json.obj [("other", Json.num 1)])
    (by decide) rfl rfl rfl).1 rfl

end ForensicSession
